import Mathlib

/-!
Verification of the natural-language specification of `vsdkx-addon-tracking`
against a shallow embedding of its Python sources.

Embedded modules:
* `vsdkx/addon/tracking/centroidtracker.py`  (`CentroidTracker`)
* `vsdkx/addon/tracking/trackableobject.py`  (`TrackableObject`)
* `vsdkx/addon/tracking/processor.py`        (`TrackerProcessor`)
* `vsdkx/addon/tracking/trajectory_processor.py` (`TrajectoryProcessor`)
* `vsdkx/addon/tracking/speed_estimation_processor.py` (`SpeedEstimationProcessor`)

Modelling conventions:
* Python dicts created per insertion order (`OrderedDict`, and plain 3.7+
  dicts) are modelled as association lists over natural-number keys.
* Python exceptions are modelled with `Except PyErr`.  An attribute that a
  Python `__init__` never assigns is modelled as an `Option` field holding
  `none`; reading it raises `AttributeError`, exactly as CPython does.
* Pixel coordinates are integers (`ℤ`); means and the direction delta
  computed with `np.mean` are exact rationals (`ℚ`).  Euclidean distances
  appear in the source only inside order comparisons (`min`, `argsort`,
  `argmin`, comparison with the non-negative `distance_threshold`), so they
  are represented by their squares, and the threshold comparison uses the
  squared threshold; `sqrt` being strictly monotone on non-negatives, every
  comparison agrees with the source.
* `np.argsort` (default kind) is modelled as a stable ascending sort; on the
  inputs analysed here all sort keys are pairwise distinct, where every sort
  produces the same permutation.
* The real-valued field-of-view formulas of the speed estimator are embedded
  over `ℝ` with `Real.tan` / `Real.arctan`.
-/

/-- Python runtime errors raised by the embedded code paths. -/
inductive PyErr where
  | valueError (msg : String)
  | attributeError (attr : String)
  | indexError
  | keyError (k : ℕ)
deriving Repr, DecidableEq

/-- An axis-aligned bounding box `(start_x, start_y, end_x, end_y)`. -/
structure Rect where
  x1 : ℤ
  y1 : ℤ
  x2 : ℤ
  y2 : ℤ
deriving Repr, DecidableEq

instance : Inhabited Rect := ⟨⟨0, 0, 0, 0⟩⟩

/-- Python `int((a + b) / 2.0)`: exact float division of integers followed by
truncation toward zero. -/
def pyHalf (s : ℤ) : ℤ := s.sign * ((s.natAbs : ℤ) / 2)

/-- Centroid of a box, `centroidtracker.py` lines 115-119:
`centroid_x = int((start_x + end_x) / 2.0)`, likewise for y. -/
def Rect.centroid (r : Rect) : ℤ × ℤ := (pyHalf (r.x1 + r.x2), pyHalf (r.y1 + r.y2))

/-- Insertion-ordered dictionary with `ℕ` keys (Python `OrderedDict` / dict). -/
abbrev ODict (α : Type) := List (ℕ × α)

/-- Dictionary lookup `d[k]` as an option. -/
def ODict.get? {α : Type} (d : ODict α) (k : ℕ) : Option α :=
  (d.find? (fun p => p.1 == k)).map Prod.snd

/-- Dictionary assignment `d[k] = v`: overwrite in place if the key exists,
append at the end otherwise (Python insertion-order semantics). -/
def ODict.set {α : Type} (d : ODict α) (k : ℕ) (v : α) : ODict α :=
  if d.any (fun p => p.1 == k) then
    d.map (fun p => if p.1 == k then (k, v) else p)
  else
    d ++ [(k, v)]

/-- Dictionary deletion `del d[k]`. -/
def ODict.del {α : Type} (d : ODict α) (k : ℕ) : ODict α :=
  d.filter (fun p => p.1 != k)

/-- `list(d.keys())`. -/
def ODict.keys {α : Type} (d : ODict α) : List ℕ := d.map Prod.fst

/-- `list(d.values())`. -/
def ODict.vals {α : Type} (d : ODict α) : List α := d.map Prod.snd

/-- Squared Euclidean distance between two integer centroids (represents the
`scipy.spatial.distance.cdist` entry; see the conventions note above). -/
def sqDist (a b : ℤ × ℤ) : ℤ :=
  (a.1 - b.1) * (a.1 - b.1) + (a.2 - b.2) * (a.2 - b.2)

/-- Minimum of a list of integers, `0` on the empty list (rows of the distance
matrix are non-empty whenever it is used). -/
def listMinZ : List ℤ → ℤ
  | [] => 0
  | v :: vs => vs.foldl min v

/-- Index of the first minimal element (`np.argmin` semantics). -/
def argminZ : List ℤ → ℕ
  | [] => 0
  | v :: vs =>
    (vs.foldl
      (fun (st : ℕ × ℕ × ℤ) w =>
        if w < st.2.2 then (st.1 + 1, st.1 + 1, w) else (st.1 + 1, st.2.1, st.2.2))
      (0, 0, v)).2.1

/-- Stable insertion of an index into an index list sorted by `key`. -/
def insertByKey (key : ℕ → ℤ) (i : ℕ) : List ℕ → List ℕ
  | [] => [i]
  | j :: js => if key i < key j then i :: j :: js else j :: insertByKey key i js

/-- `np.argsort` over a list of keys: the list of indices sorted by value,
ascending, stably. -/
def argsortAsc (vals : List ℤ) : List ℕ :=
  (List.range vals.length).foldl (fun acc i => insertByKey (fun j => vals.getD j 0) i acc) []

/-- State of `CentroidTracker` (`centroidtracker.py` lines 29-51).
`distance_threshold` is kept as the integer threshold of the configuration;
distance comparisons square it (conventions note). -/
structure CentroidTracker where
  next_object_id : ℕ
  objects : ODict (ℤ × ℤ)
  bounding_box : ODict Rect
  disappeared : ODict ℕ
  updated : ODict Bool
  max_disappeared : ℕ
  distance_threshold : ℤ
deriving Repr

/-- A fresh tracker (`CentroidTracker.__init__`). -/
def CentroidTracker.init (max_disappeared : ℕ) (distance_threshold : ℤ) : CentroidTracker :=
  ⟨0, [], [], [], [], max_disappeared, distance_threshold⟩

/-- `CentroidTracker.register` (lines 53-67). -/
def CentroidTracker.register (t : CentroidTracker) (c : ℤ × ℤ) (r : Rect) : CentroidTracker :=
  { t with
    objects := t.objects.set t.next_object_id c
    bounding_box := t.bounding_box.set t.next_object_id r
    disappeared := t.disappeared.set t.next_object_id 0
    updated := t.updated.set t.next_object_id false
    next_object_id := t.next_object_id + 1 }

/-- `CentroidTracker.deregister` (lines 69-80): deletes from `objects`,
`bounding_box` and `disappeared` only — the `updated` entry is kept, exactly
as in the source. -/
def CentroidTracker.deregister (t : CentroidTracker) (oid : ℕ) : CentroidTracker :=
  { t with
    objects := t.objects.del oid
    bounding_box := t.bounding_box.del oid
    disappeared := t.disappeared.del oid }

/-- Empty-input branch of `update` (lines 95-109): bump every `disappeared`
counter over a snapshot of the key list, deregistering those past the limit. -/
def CentroidTracker.emptyTick (t : CentroidTracker) : CentroidTracker :=
  t.disappeared.keys.foldl
    (fun t oid =>
      let t := { t with disappeared := t.disappeared.set oid ((t.disappeared.get? oid).getD 0 + 1) }
      if (t.disappeared.get? oid).getD 0 > t.max_disappeared then t.deregister oid else t)
    t

/-- One iteration of the matching loop `for (row, col) in zip(rows, cols)`
(lines 160-190).  State: tracker, `used_rows`, `used_cols`.  The
threshold-rejection branch registers with `rects[i]` where `i` is the stale
index left over from the centroid loop, i.e. the LAST input box — embedded
faithfully via `rects.getLastD`. -/
def CentroidTracker.matchStep (rects : List Rect) (input_centroids : List (ℤ × ℤ))
    (D : List (List ℤ)) (object_ids : List ℕ)
    (st : CentroidTracker × List ℕ × List ℕ) (rc : ℕ × ℕ) :
    CentroidTracker × List ℕ × List ℕ :=
  let t := st.1
  let used_rows := st.2.1
  let used_cols := st.2.2
  let row := rc.1
  let col := rc.2
  if used_rows.contains row || used_cols.contains col then st
  else
    let object_dist := (D.getD row []).getD col 0
    if object_dist > t.distance_threshold * t.distance_threshold then
      (t.register (input_centroids.getD col (0, 0)) (rects.getLastD default),
        row :: used_rows, col :: used_cols)
    else
      let object_id := object_ids.getD row 0
      ({ t with
          objects := t.objects.set object_id (input_centroids.getD col (0, 0))
          bounding_box := t.bounding_box.set object_id (rects.getD col default)
          disappeared := t.disappeared.set object_id 0
          updated := t.updated.set object_id true },
        row :: used_rows, col :: used_cols)

/-- `CentroidTracker.update` (lines 82-224).  Returns the new tracker state
together with the 3-tuple that the Python method returns:
`(self.objects, self.bounding_box, self.updated)`. -/
def CentroidTracker.update (t : CentroidTracker) (rects : List Rect) :
    CentroidTracker × (ODict (ℤ × ℤ) × ODict Rect × ODict Bool) :=
  if rects.isEmpty then
    let t := t.emptyTick
    (t, (t.objects, t.bounding_box, t.updated))
  else
    let input_centroids := rects.map Rect.centroid
    if t.objects.isEmpty then
      let t := (List.range rects.length).foldl
        (fun t i => t.register (input_centroids.getD i (0, 0)) (rects.getD i default)) t
      (t, (t.objects, t.bounding_box, t.updated))
    else
      let object_ids := t.objects.keys
      let object_centroids := t.objects.vals
      let D := object_centroids.map (fun oc => input_centroids.map (fun ic => sqDist oc ic))
      let rows := argsortAsc (D.map listMinZ)
      let colsAll := D.map argminZ
      let cols := rows.map (fun r => colsAll.getD r 0)
      let stF := (rows.zip cols).foldl (CentroidTracker.matchStep rects input_centroids D object_ids) (t, [], [])
      let t := stF.1
      let used_rows := stF.2.1
      let used_cols := stF.2.2
      let nrows := D.length
      let ncols := input_centroids.length
      let unused_rows := (List.range nrows).filter (fun r => !(used_rows.contains r))
      let unused_cols := (List.range ncols).filter (fun c => !(used_cols.contains c))
      let t :=
        if nrows ≥ ncols then
          unused_rows.foldl
            (fun t row =>
              let oid := object_ids.getD row 0
              let t := { t with
                disappeared := t.disappeared.set oid ((t.disappeared.get? oid).getD 0 + 1)
                updated := t.updated.set oid false }
              if (t.disappeared.get? oid).getD 0 > t.max_disappeared then t.deregister oid else t)
            t
        else
          unused_cols.foldl
            (fun t col => t.register (input_centroids.getD col (0, 0)) (rects.getLastD default)) t
      (t, (t.objects, t.bounding_box, t.updated))

/-- Running-mean field of `TrackableObject`: `__init__` stores the string
`''`, the processor later stores numeric pairs (dynamic typing). -/
inductive TrajMean where
  | str (s : String)
  | pair (x y : ℚ)

/-- Per-identity state (`trackableobject.py` lines 15-31).  The last four
fields are `Option`s because `__init__` never assigns those attributes:
`none` models "attribute absent", and reading it raises `AttributeError`.
(`processor.py` reads `tracked_number`; `speed_estimation_processor.py`
reads `speeds`; `current_speed` and `action` are first created by plain
assignment in the speed estimator.) -/
structure TrackableObject where
  object_id : ℕ
  centroids : List (ℤ × ℤ)
  bounding_box : Rect
  counted : Bool
  direction : String
  position : String
  prev_position : String
  trajectory_mean : TrajMean
  tracked_number : Option ℤ
  speeds : Option (List ℚ)
  current_speed : Option ℚ
  action : Option String

/-- `TrackableObject.__init__`. -/
def TrackableObject.init (oid : ℕ) (centroid : ℤ × ℤ) (bb : Rect) : TrackableObject :=
  ⟨oid, [centroid], bb, false, "", "", "", .str "", none, none, none, none⟩

/-- Mean of a list of integers as an exact rational (`np.mean`); the source
only applies it to non-empty centroid histories. -/
def meanZ (l : List ℤ) : ℚ := ((l.sum : ℚ)) / (l.length : ℚ)

/-- Python `l[-k]`.  For `k ≥ 1` this is the element at `len - k`
(IndexError when `k > len`); `l[-0]` is `l[0]`. -/
def pyNegGet {α : Type} (l : List α) (k : ℕ) : Except PyErr α :=
  if k = 0 then
    match l.head? with
    | some a => .ok a
    | none => .error .indexError
  else if k ≤ l.length then
    match l.get? (l.length - k) with
    | some a => .ok a
    | none => .error .indexError
  else .error .indexError

/-- Configuration of `TrackerProcessor` (`processor.py` lines 25-27). -/
structure PConfig where
  bidirectional_mode : Bool
  bidirectional_threshold : ℤ
  min_appearance : ℤ
deriving Repr

/-- Per-object crossing counters accumulated by `_box_counter` in one
iteration: the unidirectional `event_counter` increment and the
`events_in` / `events_out` values. -/
structure ECounts where
  uni : ℕ
  inC : ℕ
  outC : ℕ
deriving Repr, DecidableEq

/-- `TrackerProcessor._get_object_position` (lines 134-166).  Mutates the
trackable object, returns `(event_counter_in, event_counter_out)`; note
`= + 1` in the source is plain assignment of `1`. -/
def getObjectPosition (threshold : ℤ) (obj : TrackableObject) (centroid : ℤ × ℤ)
    (direction : ℚ) : TrackableObject × ℕ × ℕ :=
  let res :=
    if direction ≥ 0 ∧ centroid.2 > threshold then
      ({ obj with position := "in" }, 1, 0)
    else if direction ≤ 0 ∧ centroid.2 < threshold then
      ({ obj with position := "out" }, 0, 1)
    else (obj, 0, 0)
  let obj := res.1
  let obj :=
    if obj.position ≠ obj.prev_position then { obj with prev_position := obj.position } else obj
  (obj, res.2.1, res.2.2)

/-- `TrackerProcessor._get_current_direction` (lines 120-132): compares
`centroids[-2]` with `centroids[-1]`, setting `direction` to `'down'` /
`'up'` (unchanged when the y coordinates are equal). -/
def getCurrentDirectionProc (obj : TrackableObject) : Except PyErr TrackableObject :=
  match pyNegGet obj.centroids 2 with
  | .error e => .error e
  | .ok prev =>
    match pyNegGet obj.centroids 1 with
    | .error e => .error e
    | .ok cur =>
      .ok { obj with
        direction :=
          if prev.2 < cur.2 then "down" else if prev.2 > cur.2 then "up" else obj.direction }

/-- Creation branch of `_box_counter` (lines 78-84 plus the common lines
115-117): a new `TrackableObject` is built, `trajectory_mean` is set to the
centroid, and `_get_object_position(centroid, 0)` is called with its return
value discarded, so the creation frame contributes no counts. -/
def processNew (cfg : PConfig) (oid : ℕ) (centroid : ℤ × ℤ) (bb : Rect) :
    TrackableObject × ECounts :=
  let obj := TrackableObject.init oid centroid bb
  let obj := { obj with trajectory_mean := .pair (centroid.1 : ℚ) (centroid.2 : ℚ) }
  let obj := (getObjectPosition cfg.bidirectional_threshold obj centroid 0).1
  ({ obj with bounding_box := bb }, ⟨0, 0, 0⟩)

/-- Existing-object branch of `_box_counter` (lines 88-117), for one tracked
object and one new centroid/box.  Source order: compute the direction delta
from the mean of the previous y coordinates, update `trajectory_mean`,
append the centroid, run `_get_current_direction`, handle `counted` (the
scalar counter increments only in unidirectional mode), then in
bidirectional mode with an unresolved `position` read `tracked_number` —
an attribute `__init__` never assigns, so that read raises
`AttributeError` (which also makes the dict assignment of lines 108-111
unreachable); finally refresh `bounding_box`. -/
def processExisting (cfg : PConfig) (obj : TrackableObject) (centroid : ℤ × ℤ) (bb : Rect) :
    Except PyErr (TrackableObject × ECounts) :=
  let ys := obj.centroids.map Prod.snd
  let xs := obj.centroids.map Prod.fst
  let direction_of_position : ℚ := (centroid.2 : ℚ) - meanZ ys
  let obj := { obj with trajectory_mean := .pair (meanZ xs) (meanZ ys) }
  let obj := { obj with centroids := obj.centroids ++ [centroid] }
  match getCurrentDirectionProc obj with
  | .error e => .error e
  | .ok obj =>
    let r :=
      if ¬ obj.counted then
        ({ obj with counted := true }, if ¬ cfg.bidirectional_mode then 1 else 0)
      else (obj, 0)
    let obj := r.1
    let uInc := r.2
    if cfg.bidirectional_mode = true ∧ obj.position = "" then
      match obj.tracked_number with
      | none => .error (.attributeError "tracked_number")
      | some n =>
        if n ≥ cfg.min_appearance then
          let r := getObjectPosition cfg.bidirectional_threshold obj centroid direction_of_position
          .ok ({ r.1 with bounding_box := bb }, ⟨uInc, r.2.1, r.2.2⟩)
        else
          .ok ({ obj with tracked_number := some (n + 1), bounding_box := bb }, ⟨uInc, 0, 0⟩)
    else
      .ok ({ obj with bounding_box := bb }, ⟨uInc, 0, 0⟩)

/-- Repeated processing of one identity's `TrackableObject` by the
existing-object branch, one element of `cs` per `_box_counter` call in which
the tracker reports that identity; accumulates the per-call counter
contributions. -/
def runSteps (cfg : PConfig) (obj : TrackableObject) :
    List ((ℤ × ℤ) × Rect) → Except PyErr (TrackableObject × ECounts)
  | [] => .ok (obj, ⟨0, 0, 0⟩)
  | c :: cs =>
    match processExisting cfg obj c.1 c.2 with
    | .error e => .error e
    | .ok (obj', e) =>
      match runSteps cfg obj' cs with
      | .error er => .error er
      | .ok (objF, tot) => .ok (objF, ⟨e.uni + tot.uni, e.inC + tot.inC, e.outC + tot.outC⟩)

/-- Projection helpers for stating concrete facts about a run. -/
def runUniCount : Except PyErr (TrackableObject × ECounts) → Option ℕ
  | .ok (_, e) => some e.uni
  | .error _ => none

/-- In-tally of a successful run. -/
def runInCount : Except PyErr (TrackableObject × ECounts) → Option ℕ
  | .ok (_, e) => some e.inC

  | .error _ => none

/-- Out-tally of a successful run. -/
def runOutCount : Except PyErr (TrackableObject × ECounts) → Option ℕ
  | .ok (_, e) => some e.outC
  | .error _ => none

/-- Final `position` of a successful run. -/
def runPositionOf : Except PyErr (TrackableObject × ECounts) → Option String
  | .ok (o, _) => some o.position
  | .error _ => none

/-- Python evaluation of `a, b = t` where `t` is a 3-tuple: CPython raises
`ValueError: too many values to unpack (expected 2)` — there is no code
path on which the two names get bound. -/
def unpack2 {α β γ : Type} (_t : α × β × γ) : Except PyErr (α × β) :=
  Except.error (.valueError "too many values to unpack (expected 2)")

/-- The event counter returned by `_box_counter`: an `int` in general, a
dict only when the bidirectional block of lines 108-111 runs. -/
inductive EventCount where
  | int (n : ℕ)
  | dict (inC outC : ℕ)
deriving Repr, DecidableEq

/-- The per-identity loop of `_box_counter` (lines 73-117) given the
unpacked `objects` and `bounding_boxes` dictionaries.  The event counter
stays in its integer form on every non-raising path: the dict assignment of
lines 108-111 sits after the `tracked_number` read of line 104, which always
raises (`tracked_number` is never initialised), so `events_in_counter` /
`events_out_counter` can never reach the returned counter. -/
def boxCounterLoop (cfg : PConfig) (tos0 : ODict TrackableObject)
    (objects : ODict (ℤ × ℤ)) (bounding_boxes : ODict Rect) :
    Except PyErr (ODict TrackableObject × EventCount × ODict TrackableObject) :=
  match objects.foldlM
      (fun (st : ODict TrackableObject × ℕ × ODict TrackableObject) item =>
        let oid := item.1
        let centroid := item.2
        match bounding_boxes.get? oid with
        | none => Except.error (PyErr.keyError oid)
        | some bb =>
          match
            (match st.1.get? oid with
             | none => Except.ok (processNew cfg oid centroid bb)
             | some obj => processExisting cfg obj centroid bb) with
          | .error e => Except.error e
          | .ok (obj', e) =>
            Except.ok (st.1.set oid obj', st.2.1 + e.uni, st.2.2.set oid obj'))
      (tos0, 0, ([] : ODict TrackableObject)) with
  | .error e => .error e
  | .ok (tos, ecUni, lastU) => .ok (tos, .int ecUni, lastU)

/-- State owned by `TrackerProcessor` across calls. -/
structure TrackerProcessorState where
  trackableObjects : ODict TrackableObject
  ct : CentroidTracker
  cfg : PConfig

/-- `TrackerProcessor._box_counter` (lines 49-118).  Line 68 is
`objects, bounding_boxes = self._ct.update(boxes)`: the right-hand side is
the 3-tuple `(objects, bounding_box, updated)` returned by
`CentroidTracker.update`, so the 2-target unpacking raises `ValueError`
before the empty-input early return of lines 70-71 can run.  The tracker
state, already mutated by `update`, is kept; the exception propagates. -/
def boxCounter (p : TrackerProcessorState) (boxes : List Rect) :
    TrackerProcessorState × Except PyErr (EventCount × ODict TrackableObject) :=
  let u := p.ct.update boxes
  let p' := { p with ct := u.1 }
  match unpack2 u.2 with
  | .error e => (p', .error e)
  | .ok ob =>
    if boxes.isEmpty then (p', .ok (.int 0, []))
    else
      match boxCounterLoop p.cfg p'.trackableObjects ob.1 ob.2 with
      | .error e => (p', .error e)
      | .ok (tos', ec, lastU) => ({ p' with trackableObjects := tos' }, .ok (ec, lastU))

/-- Direction-string computation of `TrajectoryProcessor._get_current_direction`
(`trajectory_processor.py` lines 66-76) for one pair of compared centroids:
start from `''`, append `'down'` / `'up'` on the y comparison, then append
`'left'` when the x coordinate increased and `'right'` when it decreased. -/
def directionString (prev cur : ℤ × ℤ) : String :=
  let d := ""
  let d := if prev.2 < cur.2 then d ++ "down" else if prev.2 > cur.2 then d ++ "up" else d
  let d := if prev.1 < cur.1 then d ++ "left" else if prev.1 > cur.1 then d ++ "right" else d
  d

/-- Per-object body of `_get_current_direction` (lines 55-76): clamp the
configured lookback index to the history length, compare
`centroids[-starting_centroid_index]` with `centroids[-1]`, store the
resulting compound direction string. -/
def trajectoryStep (centroid_index : ℕ) (obj : TrackableObject) : Except PyErr TrackableObject :=
  let starting_centroid_index := min obj.centroids.length centroid_index
  match pyNegGet obj.centroids starting_centroid_index with
  | .error e => .error e
  | .ok prev =>
    match pyNegGet obj.centroids 1 with
    | .error e => .error e
    | .ok cur => .ok { obj with direction := directionString prev cur }

/-- Direction of a successful trajectory step. -/
def trajDirOf : Except PyErr TrackableObject → Option String
  | .ok o => some o.direction
  | .error _ => none

/-- The else-branch of `SpeedEstimationProcessor._get_object_speed`
(`speed_estimation_processor.py` lines 188-190), reached for objects with at
most one centroid sample: `tracked_object.speeds.append(0)` and skip
classification.  Reading `speeds` on an object whose `__init__` never
assigned it raises `AttributeError`. -/
def speedPassSingle (obj : TrackableObject) : Except PyErr TrackableObject :=
  match obj.speeds with
  | none => .error (.attributeError "speeds")
  | some s => .ok { obj with speeds := some (s ++ [(0 : ℚ)]) }

/-- Rolling-average update of lines 172-183, as a function of the `speeds`
list found after the new sample was appended: when more than `fps` samples
exist, average the Python slice `speeds[(len(speeds) - fps - 1):-1]`
(i.e. drop the first `len - fps - 1` entries, then drop the final entry),
else average the whole list. -/
def currentSpeedAfterAppend (fps : ℕ) (speeds : List ℚ) : ℚ :=
  if speeds.length > fps then
    ((speeds.drop (speeds.length - fps - 1)).dropLast).sum / (fps : ℚ)
  else
    speeds.sum / (speeds.length : ℚ)

/-- Mean of the `fps` most recent samples of a list — the claim's words
("arithmetic mean of the most recent `fps` samples"), for comparison with
the slice the code actually averages. -/
def meanRecent (fps : ℕ) (l : List ℚ) : ℚ :=
  (l.drop (l.length - fps)).sum / (fps : ℚ)

/-- `np.degrees`: radians-to-degrees conversion, multiplication by `180 / π`.
This is the function the source applies inside `np.tan` (lines 157-158). -/
noncomputable def npDegrees (x : ℝ) : ℝ := x * 180 / Real.pi

/-- `np.radians` / `math.radians`: degrees-to-radians conversion,
multiplication by `π / 180` — the conversion the specification names. -/
noncomputable def npRadians (x : ℝ) : ℝ := x * Real.pi / 180

/-- Per-axis field-of-view angle of lines 145-155: the configured degrees
value when non-zero, otherwise the pinhole approximation
`2 * arctan(lens_dimension / (2 * focal_length))`. -/
noncomputable def fovAngle (degrees lens focal : ℝ) : ℝ :=
  if degrees = 0 then 2 * Real.arctan (lens / (2 * focal)) else degrees

/-- Per-axis real-world extent as computed by lines 157-158:
`2 * camera_length * np.tan(np.degrees(a))`. -/
noncomputable def axisRealExtent (camera_length degrees lens focal : ℝ) : ℝ :=
  2 * camera_length * Real.tan (npDegrees (fovAngle degrees lens focal))

/-- Per-axis real-world extent as the claim states it:
`2 * camera_length * tan(radians(fov_degrees))`. -/
noncomputable def axisRealExtentClaim (camera_length degrees lens focal : ℝ) : ℝ :=
  2 * camera_length * Real.tan (npRadians (fovAngle degrees lens focal))


/-- Degenerate one-pixel box whose centroid is exactly `(x, y)`. -/
def boxAt (x y : ℤ) : Rect := ⟨x, y, x, y⟩

/-- C7 scenario, frames 1-2: `distance_threshold = 10`; register an identity
at `(0, 0)`, then match it once in place so that its `updated` flag is the
in-frame value `true` of a matched identity. -/
def c7start : CentroidTracker :=
  (((CentroidTracker.init 50 10).update [boxAt 0 0]).1.update [boxAt 0 0]).1

/-- C7 scenario, frame 3: one input box with centroid `(50, 50)`. -/
def c7after : CentroidTracker := (c7start.update [boxAt 50 50]).1

/-- C8 scenario: `distance_threshold = 50`; two identities registered at
`(0, 0)` and `(100, 100)`. -/
def c8start : CentroidTracker :=
  ((CentroidTracker.init 50 50).update [boxAt 0 0, boxAt 100 100]).1

/-- C8 scenario, second frame: boxes with centroids `(2, 2)` and `(98, 99)`
(the second is a genuine 4-corner box exercising the midpoint computation). -/
def c8after : CentroidTracker := (c8start.update [boxAt 2 2, ⟨96, 97, 100, 101⟩]).1

/-- A tracked object whose compared centroids are prior `(10, 10)` and
current `(5, 20)` (two samples; lookback index clamped from 3 to 2). -/
def c4obj : TrackableObject :=
  { TrackableObject.init 0 (10, 10) (boxAt 10 10) with centroids := [(10, 10), (5, 20)] }

/-- Bidirectional configuration with `bidirectional_threshold = 100`. -/
def c2cfg : PConfig := ⟨true, 100, 0⟩

/-- Object created (frame 1) at centroid `(0, 50)` under `c2cfg`. -/
def c2obj : TrackableObject := (processNew c2cfg 7 (0, 50) (boxAt 0 50)).1

/-- Unidirectional configuration. -/
def c9cfg : PConfig := ⟨false, 100, 5⟩

/-- An object under `c9cfg` that has already been counted. -/
def c9obj : TrackableObject := { (processNew c9cfg 3 (0, 0) (boxAt 0 0)).1 with counted := true }

/-- One further frame at centroid `(0, 150)`, crossing the threshold line. -/
def c10cs : List ((ℤ × ℤ) × Rect) := [((0, 150), boxAt 0 150)]

/-- Element `l[-1]` of a list just extended by `c` is `c`. -/
theorem pyNegGet_append_one {α : Type} (l : List α) (c : α) : pyNegGet (l ++ [c]) 1 = .ok c := by
  unfold pyNegGet
  rw [if_neg one_ne_zero, if_pos (by simp)]
  simp [List.get?_concat_length]

/-- Element `l[-2]` exists in a list of length at least two. -/
theorem pyNegGet_append_two {α : Type} (l : List α) (c : α) (h : l ≠ []) :
    ∃ a, pyNegGet (l ++ [c]) 2 = .ok a := by
  have hlen : 1 ≤ l.length := List.length_pos.mpr h
  unfold pyNegGet
  rw [if_neg (by omega : ¬ (2 : ℕ) = 0), if_pos (by simp; omega)]
  have hidx : (l ++ [c]).length - 2 = l.length - 1 := by simp
  rw [hidx, List.get?_append (by omega)]
  have h2 : l.length - 1 < l.length := by omega
  rw [List.get?_eq_get h2]
  exact ⟨_, rfl⟩

/-- On an object whose history was just extended, `_get_current_direction`
succeeds and only modifies the `direction` field. -/
theorem getCurrentDirectionProc_append (obj : TrackableObject) (c : ℤ × ℤ)
    (h : obj.centroids ≠ []) :
    ∃ d, getCurrentDirectionProc { obj with centroids := obj.centroids ++ [c] } =
      .ok { obj with centroids := obj.centroids ++ [c], direction := d } := by
  obtain ⟨p, hp⟩ := pyNegGet_append_two obj.centroids c h
  refine ⟨if p.2 < c.2 then "down" else if p.2 > c.2 then "up" else obj.direction, ?_⟩
  unfold getCurrentDirectionProc
  rw [show ({ obj with centroids := obj.centroids ++ [c] } : TrackableObject).centroids
      = obj.centroids ++ [c] from rfl, hp, pyNegGet_append_one]

/-- In bidirectional mode, an object whose `position` is already resolved
is carried through the existing-object branch with no counter contribution
and an unchanged `position`: the guard `not self._trackable_obj.position`
of line 103 fails, so the whole crossing block is skipped. -/
theorem processExisting_bid_skip (cfg : PConfig) (obj : TrackableObject) (c : ℤ × ℤ) (bb : Rect)
    (hb : cfg.bidirectional_mode = true) (hne : obj.centroids ≠ []) (hpos : obj.position ≠ "") :
    ∃ obj', processExisting cfg obj c bb = .ok (obj', ⟨0, 0, 0⟩) ∧
      obj'.position = obj.position ∧ obj'.centroids ≠ [] := by
  have hne2 : ({ obj with trajectory_mean := TrajMean.pair (meanZ (obj.centroids.map Prod.fst)) (meanZ (obj.centroids.map Prod.snd)) } : TrackableObject).centroids ≠ [] := hne
  obtain ⟨d, hd⟩ := getCurrentDirectionProc_append _ c hne2
  unfold processExisting
  dsimp only
  rw [hd]
  dsimp only
  by_cases hc : obj.counted = true
  · simp only [hc, hb, not_true, ite_false, reduceIte]
    rw [if_neg (by simp [hpos])]
    exact ⟨_, rfl, rfl, by simp⟩
  · simp only [eq_false hc, hb, not_false_iff, ite_true, reduceIte]
    rw [if_neg (by simp [hpos])]
    exact ⟨_, rfl, rfl, by simp⟩

/-- In unidirectional mode the existing-object branch always succeeds,
contributes `1` to the scalar counter exactly when the object was not yet
counted, and leaves the object counted. -/
theorem processExisting_uni (cfg : PConfig) (obj : TrackableObject) (c : ℤ × ℤ) (bb : Rect)
    (hb : cfg.bidirectional_mode = false) (hne : obj.centroids ≠ []) :
    ∃ obj', processExisting cfg obj c bb =
        .ok (obj', ⟨if obj.counted = true then 0 else 1, 0, 0⟩) ∧
      obj'.counted = true ∧ obj'.centroids ≠ [] := by
  have hne2 : ({ obj with trajectory_mean := TrajMean.pair (meanZ (obj.centroids.map Prod.fst)) (meanZ (obj.centroids.map Prod.snd)) } : TrackableObject).centroids ≠ [] := hne
  obtain ⟨d, hd⟩ := getCurrentDirectionProc_append _ c hne2
  unfold processExisting
  dsimp only
  rw [hd]
  dsimp only
  by_cases hc : obj.counted = true
  · simp only [hc, hb, not_true, ite_false, reduceIte]
    rw [if_neg (by simp)]
    exact ⟨_, rfl, rfl, by simp⟩
  · simp only [eq_false hc, hb, not_false_iff, ite_true, reduceIte]
    rw [if_neg (by simp)]
    exact ⟨_, rfl, rfl, by simp⟩

/-- Iterating the existing-object branch in bidirectional mode from a
resolved `position` accumulates no counts and preserves the position. -/
theorem runSteps_bid_skip (cfg : PConfig) (hb : cfg.bidirectional_mode = true) :
    ∀ (cs : List ((ℤ × ℤ) × Rect)) (obj : TrackableObject),
      obj.position ≠ "" → obj.centroids ≠ [] →
      ∃ objF, runSteps cfg obj cs = .ok (objF, ⟨0, 0, 0⟩) ∧ objF.position = obj.position := by
  intro cs
  induction cs with
  | nil => exact fun obj h1 h2 => ⟨obj, rfl, rfl⟩
  | cons c cs ih =>
    intro obj h1 h2
    obtain ⟨obj', hstep, hpos, hcent⟩ := processExisting_bid_skip cfg obj c.1 c.2 hb h2 h1
    obtain ⟨objF, hrun, hposF⟩ := ih obj' (by rw [hpos]; exact h1) hcent
    refine ⟨objF, ?_, by rw [hposF, hpos]⟩
    unfold runSteps
    rw [hstep]
    dsimp only
    rw [hrun]
    simp

/-- Iterating the existing-object branch in unidirectional mode accumulates
at most one scalar count, and none at all once the object is counted. -/
theorem runSteps_uni (cfg : PConfig) (hb : cfg.bidirectional_mode = false) :
    ∀ (cs : List ((ℤ × ℤ) × Rect)) (obj : TrackableObject), obj.centroids ≠ [] →
      ∃ objF u, runSteps cfg obj cs = .ok (objF, ⟨u, 0, 0⟩) ∧
        (obj.counted = true → u = 0) ∧ u ≤ 1 := by
  intro cs
  induction cs with
  | nil => exact fun obj _ => ⟨obj, 0, rfl, fun _ => rfl, by omega⟩
  | cons c cs ih =>
    intro obj h2
    obtain ⟨obj', hstep, hcounted, hcent⟩ := processExisting_uni cfg obj c.1 c.2 hb h2
    obtain ⟨objF, u', hrun, hu0, hu1⟩ := ih obj' hcent
    have hu'0 : u' = 0 := hu0 hcounted
    subst hu'0
    refine ⟨objF, if obj.counted = true then 0 else 1, ?_, ?_, ?_⟩
    · unfold runSteps
      rw [hstep]
      dsimp only
      rw [hrun]
      cases h : obj.counted <;> simp [h]
    · intro h; simp [h]
    · split <;> omega

/-- The creation branch: the new object is not counted, holds the single
centroid, contributes no counts, and — because the initial
`_get_object_position` call passes direction `0`, which satisfies both the
`>= 0` and the `<= 0` guard — already has `position` resolved to `'in'`
or `'out'` whenever the first y coordinate is not exactly the threshold. -/
theorem processNew_fields (cfg : PConfig) (oid : ℕ) (c : ℤ × ℤ) (bb : Rect) :
    (processNew cfg oid c bb).1.counted = false ∧
    (processNew cfg oid c bb).1.centroids = [c] ∧
    (processNew cfg oid c bb).1.position =
      (if cfg.bidirectional_threshold < c.2 then "in"
       else if c.2 < cfg.bidirectional_threshold then "out" else "") ∧
    (processNew cfg oid c bb).2 = ⟨0, 0, 0⟩ := by
  unfold processNew getObjectPosition TrackableObject.init
  dsimp only
  split_ifs <;> simp_all

/-- Dropping the last element commutes with dropping a prefix. -/
theorem dropLast_drop_comm {α : Type} (l : List α) (k : ℕ) :
    (l.drop k).dropLast = l.dropLast.drop k := by
  rw [List.dropLast_eq_take, List.dropLast_eq_take, List.drop_take, List.length_drop,
    Nat.sub_right_comm]

/-- C1: `_box_counter` delegates to `CentroidTracker.update`, whose return
value is the 3-tuple `(objects, bounding_box, updated)`; the 2-target
unpacking on `processor.py` line 68 therefore raises
`ValueError: too many values to unpack` on every call — in particular, on
empty input the function raises instead of returning `(0, {})`. -/
theorem C1_empty_input_raises_instead_of_returning (p : TrackerProcessorState) :
    (boxCounter p []).2 =
      .error (.valueError "too many values to unpack (expected 2)") := rfl

/-- C2 counterexample: under `bidirectional_threshold = 100`, an object whose
centroid y moves from 50 to 150 across frames does NOT get `position = "in"`
and does NOT increment the in tally: the creation-frame evaluation (direction
`0`, y = 50 below the threshold) resolves `position` to `"out"`, and the
position-empty guard then blocks every later crossing evaluation, so the in
tally stays `0`. -/
theorem C2_counterexample :
    runInCount (runSteps c2cfg c2obj [((0, 150), boxAt 0 150)]) = some 0 ∧
    runPositionOf (runSteps c2cfg c2obj [((0, 150), boxAt 0 150)]) = some "out" := by
  decide

/-- C2 amended: in bidirectional mode with `bidirectional_threshold = 100`,
an object first seen at centroid y = 50 has `position` resolved to `"out"`
already at its creation frame (initial evaluation with direction `0`); a
count could only be emitted on the transition out of the empty `position`,
and since `position` is never empty afterwards, the in tally is never
incremented on any later frame — in particular not when y moves to 150. -/
theorem C2_amended_first_side_sticks (cfg : PConfig) (oid : ℕ) (x : ℤ) (bb : Rect)
    (cs : List ((ℤ × ℤ) × Rect))
    (hb : cfg.bidirectional_mode = true) (ht : cfg.bidirectional_threshold = 100) :
    (processNew cfg oid (x, 50) bb).1.position = "out" ∧
    ∃ objF, runSteps cfg (processNew cfg oid (x, 50) bb).1 cs = .ok (objF, ⟨0, 0, 0⟩) ∧
      objF.position = "out" := by
  obtain ⟨hcounted, hcent, hpos, hcnt⟩ := processNew_fields cfg oid (x, 50) bb
  have hpos' : (processNew cfg oid (x, 50) bb).1.position = "out" := by
    rw [hpos, ht]; norm_num
  refine ⟨hpos', ?_⟩
  obtain ⟨objF, hrun, hposF⟩ :=
    runSteps_bid_skip cfg hb cs _ (by rw [hpos']; simp) (by rw [hcent]; simp)
  exact ⟨objF, hrun, by rw [hposF, hpos']⟩

/-- C2 amended, witness: the amended statement at the concrete scenario of
the claim (y = 50 at creation, then y = 150). -/
theorem C2_amended_first_side_sticks_witness :
    (processNew c2cfg 7 (0, 50) (boxAt 0 50)).1.position = "out" ∧
    ∃ objF, runSteps c2cfg (processNew c2cfg 7 (0, 50) (boxAt 0 50)).1
        [((0, 150), boxAt 0 150)] = .ok (objF, ⟨0, 0, 0⟩) ∧ objF.position = "out" :=
  C2_amended_first_side_sticks c2cfg 7 0 (boxAt 0 50) [((0, 150), boxAt 0 150)] rfl rfl

/-- C3: `TrackableObject.__init__` never assigns the `speeds` and
`tracked_number` attributes claimed by the data model, so the speed
estimator's single-sample pass raises `AttributeError` instead of appending
a `0` sample. -/
theorem C3_init_lacks_speeds_and_tracked_number (oid : ℕ) (c : ℤ × ℤ) (bb : Rect) :
    (TrackableObject.init oid c bb).speeds = none ∧
    (TrackableObject.init oid c bb).tracked_number = none ∧
    speedPassSingle (TrackableObject.init oid c bb) = .error (.attributeError "speeds") :=
  ⟨rfl, rfl, rfl⟩

/-- C4 counterexample: for prior `(10, 10)` and current `(5, 20)` the code
yields `"downright"`, not the claimed `"downleft"`: the source appends
`'left'` when the x coordinate increased and `'right'` when it decreased. -/
theorem C4_counterexample :
    trajDirOf (trajectoryStep 3 c4obj) = some "downright" ∧
    some "downright" ≠ some "downleft" := by
  decide

/-- C4 amended: the direction string concatenates, vertical token first, the
token `down` when y increased / `up` when y decreased with the token `left`
when x INCREASED / `right` when x DECREASED; hence prior `(10, 10)` and
current `(5, 20)` yield `"downright"`. -/
theorem C4_amended_vertical_then_horizontal :
    (∀ prev cur : ℤ × ℤ,
      directionString prev cur =
        (if prev.2 < cur.2 then "down" else if prev.2 > cur.2 then "up" else "") ++
        (if prev.1 < cur.1 then "left" else if prev.1 > cur.1 then "right" else "")) ∧
    trajDirOf (trajectoryStep 3 c4obj) = some "downright" := by
  refine ⟨fun prev cur => ?_, by decide⟩
  simp only [directionString]
  split_ifs <;> simp [String.append_empty, String.empty_append]

/-- C5 counterexample: at `camera_length = 1` and configured horizontal
degrees `1 / 100`, the extent the code computes (`tan` of the angle
multiplied by `180 / π`, i.e. `np.degrees`) differs from the claimed
`tan(radians(fov_degrees))`: both arguments lie in `(0, π / 2)` where `tan`
is strictly monotone, and the arguments differ. -/
theorem C5_counterexample :
    axisRealExtent 1 (1 / 100) 2000 4000 ≠ axisRealExtentClaim 1 (1 / 100) 2000 4000 := by
  have hpi : (0 : ℝ) < Real.pi := Real.pi_pos
  have h6 : (3.141592 : ℝ) < Real.pi := Real.pi_gt_d6
  have h2 : Real.pi < 3.15 := Real.pi_lt_d2
  unfold axisRealExtent axisRealExtentClaim fovAngle npDegrees npRadians
  rw [if_neg (by norm_num)]
  intro h
  have hlt : Real.tan ((1 / 100 : ℝ) * Real.pi / 180) < Real.tan ((1 / 100 : ℝ) * 180 / Real.pi) := by
    apply Real.tan_lt_tan_of_nonneg_of_lt_pi_div_two
    · positivity
    · rw [div_lt_div_iff hpi (by norm_num : (0 : ℝ) < 2)]
      nlinarith
    · rw [div_lt_div_iff (by norm_num : (0 : ℝ) < 180) hpi]
      nlinarith
  nlinarith [hlt]

/-- C5 amended: the per-axis extent is
`2 * camera_length * tan(np.degrees(fov))`, i.e. the angle is multiplied by
`180 / π` (NOT converted to radians), where `fov` is the configured per-axis
degrees value when non-zero and otherwise
`2 * atan(lens_dimension / (2 * focal_length))`. -/
theorem C5_amended_np_degrees_conversion (cl d l f : ℝ) :
    axisRealExtent cl d l f = 2 * cl * Real.tan (fovAngle d l f * 180 / Real.pi) ∧
    fovAngle d l f = (if d = 0 then 2 * Real.arctan (l / (2 * f)) else d) := ⟨rfl, rfl⟩

/-- C6 counterexample: with `fps = 1` and `speeds = [1, 2]` after the append,
the code averages the slice `speeds[0:-1] = [1]` and stores `1`, while the
mean of the most recent `fps = 1` samples is `2`. -/
theorem C6_counterexample :
    currentSpeedAfterAppend 1 [1, 2] = 1 ∧
    meanRecent 1 [1, 2] = 2 ∧
    currentSpeedAfterAppend 1 [1, 2] ≠ meanRecent 1 [1, 2] := by
  norm_num [currentSpeedAfterAppend, meanRecent]

/-- C6 amended: once more than `fps` samples exist, `current_speed` is the
mean of the `fps` most recent samples of the history WITHOUT its final
(just-appended) entry — the slice `[(len - fps - 1):-1]` — and otherwise the
mean of all samples so far. -/
theorem C6_amended_window_excludes_last (fps : ℕ) (speeds : List ℚ) :
    (speeds.length > fps →
      currentSpeedAfterAppend fps speeds = meanRecent fps speeds.dropLast) ∧
    (speeds.length ≤ fps →
      currentSpeedAfterAppend fps speeds = speeds.sum / (speeds.length : ℚ)) := by
  constructor
  · intro h
    unfold currentSpeedAfterAppend meanRecent
    rw [if_pos h, dropLast_drop_comm, List.length_dropLast, Nat.sub_right_comm]
  · intro h
    unfold currentSpeedAfterAppend
    rw [if_neg (by omega)]

/-- C6 amended, witness at `fps = 1`, `speeds = [1, 2, 3]`. -/
theorem C6_amended_window_excludes_last_witness :
    currentSpeedAfterAppend 1 [1, 2, 3] = meanRecent 1 (List.dropLast [1, 2, 3]) :=
  (C6_amended_window_excludes_last 1 [1, 2, 3]).1 (by decide)

/-- C7 counterexample: with the tracker holding the single identity `0` at
`(0, 0)` (matched on the previous frame, so `updated[0] = true`,
`disappeared[0] = 0`) and `distance_threshold = 10`, updating with one box
of centroid `(50, 50)` registers the new identity `1` but neither
increments identity 0's missed counter nor marks it unmatched: the
rejected row is consumed by the threshold branch, so `disappeared[0]`
stays `0` and `updated[0]` stays `true`. -/
theorem C7_counterexample :
    c7start.objects = [(0, ((0 : ℤ), (0 : ℤ)))] ∧
    c7start.updated = [(0, true)] ∧
    c7start.disappeared = [(0, 0)] ∧
    c7after.objects.get? 1 = some (50, 50) ∧
    ¬ (c7after.disappeared.get? 0 = some 1 ∨ c7after.updated.get? 0 = some false) := by
  decide

/-- C7 amended: the rejected match registers a brand-new identity with
centroid `(50, 50)` and leaves the old identity untouched — its centroid
stays `(0, 0)`, its missed counter is NOT incremented (the rejection
consumes the row), and its `updated` flag keeps its previous value. -/
theorem C7_amended_rejection_consumes_row :
    c7after.next_object_id = 2 ∧
    c7after.objects.get? 1 = some (50, 50) ∧
    c7after.objects.get? 0 = some (0, 0) ∧
    c7after.disappeared.get? 0 = some 0 ∧
    c7after.updated.get? 0 = c7start.updated.get? 0 := by
  decide

/-- C8: greedy matching re-resolves the identities at `(0, 0)` and
`(100, 100)` to the nearby centroids `(2, 2)` and `(98, 99)` with no swap,
no registration (`next_object_id` still 2), and no deregistration; both
identities are marked updated with missed counters reset. -/
theorem C8_matching_stability :
    c8start.objects = [(0, ((0 : ℤ), (0 : ℤ))), (1, ((100 : ℤ), (100 : ℤ)))] ∧
    c8after.objects = [(0, ((2 : ℤ), (2 : ℤ))), (1, ((98 : ℤ), (99 : ℤ)))] ∧
    c8after.next_object_id = 2 ∧
    c8after.disappeared = [(0, 0), (1, 0)] ∧
    c8after.updated = [(0, true), (1, true)] := by
  decide

/-- C9: in unidirectional mode, an already-counted object contributes no
further scalar increments over any sequence of later frames, and an object
followed from its creation contributes at most one increment over the whole
run. -/
theorem C9_unidirectional_counts_at_most_once :
    (∀ (cfg : PConfig) (obj : TrackableObject) (cs : List ((ℤ × ℤ) × Rect)),
        cfg.bidirectional_mode = false → obj.counted = true → obj.centroids ≠ [] →
        ∃ objF, runSteps cfg obj cs = .ok (objF, ⟨0, 0, 0⟩)) ∧
    (∀ (cfg : PConfig) (oid : ℕ) (c : ℤ × ℤ) (bb : Rect) (cs : List ((ℤ × ℤ) × Rect)),
        cfg.bidirectional_mode = false →
        ∃ objF u, runSteps cfg (processNew cfg oid c bb).1 cs = .ok (objF, ⟨u, 0, 0⟩) ∧
          u ≤ 1) := by
  constructor
  · intro cfg obj cs hb hc hne
    obtain ⟨objF, u, hrun, hu0, _⟩ := runSteps_uni cfg hb cs obj hne
    rw [hu0 hc] at hrun
    exact ⟨objF, hrun⟩
  · intro cfg oid c bb cs hb
    obtain ⟨_, hcent, _, _⟩ := processNew_fields cfg oid c bb
    obtain ⟨objF, u, hrun, _, hu1⟩ := runSteps_uni cfg hb cs _ (by rw [hcent]; simp)
    exact ⟨objF, u, hrun, hu1⟩

/-- C9 witness: a counted object processed for one further frame yields no
increment. -/
theorem C9_unidirectional_counts_at_most_once_witness :
    ∃ objF, runSteps c9cfg c9obj [((1, 1), boxAt 1 1)] = .ok (objF, ⟨0, 0, 0⟩) :=
  C9_unidirectional_counts_at_most_once.1 c9cfg c9obj [((1, 1), boxAt 1 1)] rfl rfl (by decide)

/-- C10: the creation-frame position evaluation runs with direction `0`,
which satisfies both directional guards, so an object whose first centroid's
y coordinate differs from `bidirectional_threshold` has `position` resolved
to `"in"` (y above the threshold) or `"out"` (below) already at creation;
because later crossing evaluation requires an empty `position`, such an
object never adds to the in or out tallies on any subsequent frame. -/
theorem C10_creation_position_blocks_tallies (cfg : PConfig) (oid : ℕ) (x y : ℤ) (bb : Rect)
    (cs : List ((ℤ × ℤ) × Rect))
    (hb : cfg.bidirectional_mode = true) (hy : y ≠ cfg.bidirectional_threshold) :
    ((processNew cfg oid (x, y) bb).1.position =
        if cfg.bidirectional_threshold < y then "in" else "out") ∧
    ∃ objF, runSteps cfg (processNew cfg oid (x, y) bb).1 cs = .ok (objF, ⟨0, 0, 0⟩) := by
  obtain ⟨_, hcent, hpos, _⟩ := processNew_fields cfg oid (x, y) bb
  have hpos' : (processNew cfg oid (x, y) bb).1.position =
      if cfg.bidirectional_threshold < y then "in" else "out" := by
    rw [hpos]
    rcases lt_trichotomy cfg.bidirectional_threshold y with h | h | h
    · simp [h]
    · exact absurd h.symm hy
    · rw [if_neg (by omega), if_pos (by omega), if_neg (by omega)]
  refine ⟨hpos', ?_⟩
  have hne : (processNew cfg oid (x, y) bb).1.position ≠ "" := by
    rw [hpos']; split <;> simp
  obtain ⟨objF, hrun, _⟩ := runSteps_bid_skip cfg hb cs _ hne (by rw [hcent]; simp)
  exact ⟨objF, hrun⟩

/-- C10 witness: creation at y = 50 under threshold 100, then a frame at
y = 150: position is `"out"` from creation and the tallies stay zero. -/
theorem C10_creation_position_blocks_tallies_witness :
    ((processNew c2cfg 0 (0, 50) (boxAt 0 50)).1.position =
        if c2cfg.bidirectional_threshold < 50 then "in" else "out") ∧
    ∃ objF, runSteps c2cfg (processNew c2cfg 0 (0, 50) (boxAt 0 50)).1 c10cs =
        .ok (objF, ⟨0, 0, 0⟩) :=
  C10_creation_position_blocks_tallies c2cfg 0 0 50 (boxAt 0 50) c10cs rfl (by decide)
